import Mathlib

/-!
Verification of the notification dispatch engine of `atlab/pipeline-tp-gui`.

Shallow embedding of the core subsystems of the repository:

* the Directory Resolver (`SlackClient.resolve_channel_id`,
  `SlackClient.resolve_user_id` in `app/integrations/slack_helpers.py`),
  including the `functools.lru_cache(maxsize=256)` memoisation;
* the Message Sender (`SlackClient._post`);
* the Reminder Decision Engine (the per-record loop of the
  `surgery_notification` view in `app/main/views.py`).

External effects (Slack API pagination pages, `chat_postMessage` outcomes,
per-destination delivery outcomes) are passed in as explicit data, and the
observable behaviour (log records, network calls, counters, notes) is
returned as explicit data, so that every theorem is about the translated
control flow of the source.
-/

namespace Pipeline

/-- Exception `SlackApiError` raised by the slack SDK; carries the service error string. -/
structure SlackApiError where
  err : String
deriving Repr, DecidableEq

/-- Python truthiness for `Optional[str]`: `not s` is true for `None` and `""`. -/
def strFalsy : Option String → Bool
  | none => true
  | some s => s.isEmpty

/-- Predicate `SlackClient._looks_like_id`: `bool(s) and s[0] in ("C", "D", "G", "U")`. -/
def looks_like_id : Option String → Bool
  | none => false
  | some s => !s.isEmpty &&
      (s.front == 'C' || s.front == 'D' || s.front == 'G' || s.front == 'U')

/-- Python `str.lstrip(c)`: drop every leading occurrence of the character. -/
def lstrip (c : Char) (s : String) : String :=
  String.mk (s.toList.dropWhile (· == c))

/-! Directory data: pages returned by the paginated Slack listings.

A pagination scan consumes pages in order; the cursor protocol of the
source (`response_metadata.next_cursor`, empty cursor terminates) is
modelled by the page list running out.  A page may instead raise
`SlackApiError`, which in the source aborts the scan (logged, `None`
returned). -/

/-- One element of `conversations_list(...)["channels"]`. -/
structure SlackChannel where
  id : Option String
  name : Option String
deriving Repr, DecidableEq

/-- One element of `users_list(...)["members"]`. -/
structure SlackUser where
  id : Option String
  name : Option String
  display_name : Option String
  real_name : Option String
  deleted : Bool
deriving Repr, DecidableEq

/-- A `conversations_list` page: either a successful page or a service error. -/
abbrev ChanPage := Except SlackApiError (List SlackChannel)

/-- A `users_list` page: either a successful page or a service error. -/
abbrev UsersPage := Except SlackApiError (List SlackUser)

/-- The inner loop of `resolve_channel_id`:
`for ch in resp.get("channels", []): if ch.get("name") == cname: return ch.get("id")`.
Returns `some ch.id` if some channel of the page matched (note the matched
channel's own `id` field may be absent), `none` if the page had no match. -/
def findChannelInPage (cname : String) (page : List SlackChannel) :
    Option (Option String) :=
  (page.find? (fun ch => ch.name == some cname)).map (·.id)

/-- The pagination loop of `resolve_channel_id`: scan pages until a name
match, an exhausted cursor, or a `SlackApiError` (which aborts with `None`). -/
def scanChannels (cname : String) : List ChanPage → Option String
  | [] => none
  | Except.error _ :: _ => none
  | Except.ok page :: rest =>
    match findChannelInPage cname page with
    | some idOpt => idOpt
    | none => scanChannels cname rest

/-- The member test of `resolve_user_id`:
`needle in (username, display, realname)` after `or ""` defaulting. -/
def userMatches (needle : String) (u : SlackUser) : Bool :=
  let username := u.name.getD ""
  let display := u.display_name.getD ""
  let realname := u.real_name.getD ""
  needle == username || needle == display || needle == realname

/-- The inner loop of `resolve_user_id`: skip members with the `deleted`
flag, return the `id` of the first remaining member matching the needle. -/
def findUserInPage (needle : String) (page : List SlackUser) :
    Option (Option String) :=
  (page.find? (fun u => !u.deleted && userMatches needle u)).map (·.id)

/-- The pagination loop of `resolve_user_id`. -/
def scanUsers (needle : String) : List UsersPage → Option String
  | [] => none
  | Except.error _ :: _ => none
  | Except.ok page :: rest =>
    match findUserInPage needle page with
    | some idOpt => idOpt
    | none => scanUsers needle rest

/-! Resolver cores: the function bodies wrapped by `lru_cache`.

Each returns the resolved value together with the number of pagination
scans performed (`0` when the function short-circuits before the
`while True` loop, `1` when the loop is entered). -/

/-- Body of `resolve_channel_id` (without the `lru_cache` wrapper). -/
def resolve_channel_id_core (pages : List ChanPage)
    (name_or_id : Option String) : Option String × Nat :=
  if strFalsy name_or_id then (none, 0)
  else if looks_like_id name_or_id then (name_or_id, 0)
  else
    match name_or_id with
    | none => (none, 0)
    | some s => (scanChannels (lstrip '#' s) pages, 1)

/-- Python `name_or_id.startswith("U")` for the single-character needle:
true exactly when the first character is `'U'` (written over the
character list so that the kernel can evaluate it). -/
def startsWithU : Option String → Bool
  | none => false
  | some s =>
    match s.toList with
    | [] => false
    | c :: _ => c == 'U'

/-- Body of `resolve_user_id` (without the `lru_cache` wrapper).  Note the
literal passthrough additionally requires `name_or_id.startswith("U")`. -/
def resolve_user_id_core (pages : List UsersPage)
    (name_or_id : Option String) : Option String × Nat :=
  if strFalsy name_or_id then (none, 0)
  else if looks_like_id name_or_id && startsWithU name_or_id then
    (name_or_id, 0)
  else
    match name_or_id with
    | none => (none, 0)
    | some s => (scanUsers (lstrip '@' s) pages, 1)

/-! Embedding of the `functools.lru_cache(maxsize=256)` wrapper.

The cache maps the raw argument (`Optional[str]`, so `None` and `""` are
distinct keys) to the memoised result, most recently used first.  A hit
returns the stored value (including a stored negative `None` result) and
moves the entry to the front; a miss computes, stores at the front, and
evicts beyond the capacity. -/

/-- An LRU cache state: entries most-recently-used first. -/
abbrev ResolveCache := List (Option String × Option String)

/-- Cache lookup: `some v` when the key is present with stored value `v`
(`v` itself may be `none`: a cached negative result). -/
def cacheLookup (cache : ResolveCache) (k : Option String) :
    Option (Option String) :=
  (cache.find? (fun e => e.1 == k)).map (·.2)

/-- Move the entry for `k` to the most-recently-used position. -/
def cacheTouch (cache : ResolveCache) (k : Option String) : ResolveCache :=
  match cacheLookup cache k with
  | none => cache
  | some v => (k, v) :: cache.filter (fun e => !(e.1 == k))

/-- Record a freshly computed result, evicting beyond the capacity. -/
def cachePut (maxsize : Nat) (cache : ResolveCache) (k : Option String)
    (v : Option String) : ResolveCache :=
  ((k, v) :: cache).take maxsize

/-- Outcome of one cached resolver call: the resolved value, the number of
pagination scans performed by this call, and the cache state after it. -/
structure ResolveOut where
  result : Option String
  scans : Nat
  cache : ResolveCache

/-- Function `resolve_channel_id` as memoised by `lru_cache(maxsize=256)`. -/
def resolve_channel_id (cache : ResolveCache) (pages : List ChanPage)
    (name_or_id : Option String) : ResolveOut :=
  match cacheLookup cache name_or_id with
  | some v => ⟨v, 0, cacheTouch cache name_or_id⟩
  | none =>
    let r := resolve_channel_id_core pages name_or_id
    ⟨r.1, r.2, cachePut 256 cache name_or_id r.1⟩

/-- Function `resolve_user_id` as memoised by `lru_cache(maxsize=256)`. -/
def resolve_user_id (cache : ResolveCache) (pages : List UsersPage)
    (name_or_id : Option String) : ResolveOut :=
  match cacheLookup cache name_or_id with
  | some v => ⟨v, 0, cacheTouch cache name_or_id⟩
  | none =>
    let r := resolve_user_id_core pages name_or_id
    ⟨r.1, r.2, cachePut 256 cache name_or_id r.1⟩

/-! Message Sender: `SlackClient._post`.

The dry-run flag, the behaviour of `chat_postMessage` (success with an
optional `ts`, or a `SlackApiError`), and the arguments are inputs; the
emitted log records, the network calls made, and the outcome (normal
return or re-raised `SlackApiError`) are the outputs. -/

instance {ε α : Type} [DecidableEq ε] [DecidableEq α] :
    DecidableEq (Except ε α) := fun
  | Except.ok a, Except.ok b =>
    if h : a = b then isTrue (by rw [h])
    else isFalse (fun hh => by cases hh; exact h rfl)
  | Except.ok _, Except.error _ => isFalse (fun hh => by cases hh)
  | Except.error _, Except.ok _ => isFalse (fun hh => by cases hh)
  | Except.error a, Except.error b =>
    if h : a = b then isTrue (by rw [h])
    else isFalse (fun hh => by cases hh; exact h rfl)

/-- Log phases used by `SlackClient._emit_log`. -/
inductive LogPhase
  | SENT | DRYRUN | SKIP | ERROR | PLAN
deriving Repr, DecidableEq

/-- One `_emit_log` record: phase, target label, text, resolved id, extra. -/
structure LogEvent where
  phase : LogPhase
  target : String
  text : String
  resolved : Option String
  extra : Option String
deriving Repr, DecidableEq

/-- Result of one `_post` call: log records in order, `chat_postMessage`
network calls in order, and the outcome (`error` = the re-raised exception). -/
structure PostOutput where
  logs : List LogEvent
  net : List (String × String)
  outcome : Except SlackApiError Unit
deriving Repr, DecidableEq

/-- Value `text or "(empty)"` of the SKIP branch. -/
def textOrEmpty (text : Option String) : String :=
  if strFalsy text then "(empty)" else text.getD ""

/-- Function `SlackClient._post`.  `postSvc` is the behaviour of
`chat_postMessage`, returning the optional `ts` or raising. -/
def post (dryRun : Bool) (postSvc : String → String → Except SlackApiError (Option String))
    (channel text : Option String) (label : String) : PostOutput :=
  if strFalsy channel || strFalsy text then
    { logs := [⟨LogPhase.SKIP, label, textOrEmpty text, channel,
               some "missing channel or text"⟩],
      net := [], outcome := Except.ok () }
  else
    let c := channel.getD ""
    let t := text.getD ""
    let plan : LogEvent := ⟨LogPhase.PLAN, label, t, some c, none⟩
    if dryRun then
      { logs := [plan, ⟨LogPhase.DRYRUN, label, t, some c, none⟩],
        net := [], outcome := Except.ok () }
    else
      match postSvc c t with
      | Except.ok ts =>
        { logs := [plan, ⟨LogPhase.SENT, label, t, some c,
                   if strFalsy ts then none else some ("ts=" ++ ts.getD "")⟩],
          net := [(c, t)], outcome := Except.ok () }
      | Except.error e =>
        { logs := [plan, ⟨LogPhase.ERROR, label, t, some c, some e.err⟩],
          net := [(c, t)], outcome := Except.error e }

/-! Reminder Decision Engine: the per-record loop of `surgery_notification`.

The behaviour of the three delivery helpers for a record
(`send_to_surgery_channel`, `dm_surgery_manager`, `send_to_shikigami_feed`)
is an input (`SendPlan`); each may return normally or raise.  The view
wraps the three calls in a single `try:` and, on any exception, increments
`errors`, logs, and attempts `dm_shikigami_manager` (whose own failure is
swallowed by `except Exception: pass`). -/

/-- The three per-record destinations, in source delivery order. -/
inductive Dest
  | surgeryChannel | managerDM | shikigamiFeed
deriving Repr, DecidableEq

/-- Behaviour of each destination delivery for one record. -/
structure SendPlan where
  surgeryChannel : Except SlackApiError Unit
  managerDM : Except SlackApiError Unit
  shikigamiFeed : Except SlackApiError Unit
deriving Repr, DecidableEq

/-- The `try:` body of the dispatch step: attempt the three deliveries in
order, stopping at the first raised exception.  Returns the destinations
actually attempted and the exception, if any. -/
def attemptSends (p : SendPlan) : List Dest × Option SlackApiError :=
  match p.surgeryChannel with
  | Except.error e => ([Dest.surgeryChannel], some e)
  | Except.ok _ =>
    match p.managerDM with
    | Except.error e => ([Dest.surgeryChannel, Dest.managerDM], some e)
    | Except.ok _ =>
      match p.shikigamiFeed with
      | Except.error e =>
        ([Dest.surgeryChannel, Dest.managerDM, Dest.shikigamiFeed], some e)
      | Except.ok _ =>
        ([Dest.surgeryChannel, Dest.managerDM, Dest.shikigamiFeed], none)

/-- Latest `SurgeryStatus` snapshot fields read by the decision
(`status.get(..., 0)` over DB integer flags). -/
structure SurgeryStatus where
  euthanized : Nat
  day_one : Nat
  day_two : Nat
  day_three : Nat
deriving Repr, DecidableEq

/-- The fields of a `Surgery` row used by the decision and the notes. -/
structure SurgeryEntry where
  animal_id : Nat
  date : Int
deriving Repr, DecidableEq

/-- Key `"day_" + num_to_word[delta_days]` (only reached for `delta_days ∈ {1,2,3}`). -/
def dayKeyStr (d : Int) : String :=
  "day_" ++ (if d = 1 then "one" else if d = 2 then "two"
             else if d = 3 then "three" else "")

/-- Value `status.get(day_key, 0)` for the bucket named by `delta_days`. -/
def dayFlag (st : SurgeryStatus) (d : Int) : Nat :=
  if d = 1 then st.day_one else if d = 2 then st.day_two
  else if d = 3 then st.day_three else 0

/-- Line 712: `should_send = force or (status.get('euthanized', 0) == 0 and
status.get(day_key, 0) == 0)`. -/
def should_send (force : Bool) (st : SurgeryStatus) (d : Int) : Bool :=
  force || (st.euthanized == 0 && dayFlag st d == 0)

/-- The `reason_flags` list composed when a record is skipped by the guard. -/
def reasonFlags (st : SurgeryStatus) (d : Int) : List String :=
  (if st.euthanized != 0 then ["euthanized=1"] else []) ++
  (if dayFlag st d != 0 then [dayKeyStr d ++ "=1"] else [])

/-- String `reason = " and ".join(reason_flags) if reason_flags else "unknown_reason"`. -/
def skipReasonStr (st : SurgeryStatus) (d : Int) : String :=
  if (reasonFlags st d).isEmpty then "unknown_reason"
  else String.intercalate " and " (reasonFlags st d)

/-- Line 745: the success note, with `' (forced)'` appended iff `force`. -/
def sentNote (force : Bool) (e : SurgeryEntry) (d : Int) : String :=
  "sent: animal_id=" ++ toString e.animal_id ++ " day=" ++ toString d ++
  (if force then " (forced)" else "")

/-- Observable outcome of evaluating one tracked record. -/
structure EntryResult where
  sent : Nat
  skipped : Nat
  errors : Nat
  notes : List String
  attempted : List Dest
  escalated : Bool
  skipReason : Option String
deriving Repr, DecidableEq

/-- One iteration of the `for entry in surgeries:` loop.  `statuses` is the
record's status history, latest first (`order_by="timestamp DESC"`); the
no-status check precedes the `delta_days` window check, as in the source. -/
def processEntry (force : Bool) (today : Int) (e : SurgeryEntry)
    (statuses : List SurgeryStatus) (plan : SendPlan) : EntryResult :=
  match statuses with
  | [] =>
    { sent := 0, skipped := 1, errors := 0,
      notes := ["skip: no_status (animal_id=" ++ toString e.animal_id ++ ")"],
      attempted := [], escalated := false, skipReason := none }
  | st :: _ =>
    let delta_days := today - e.date
    if ¬(delta_days = 1 ∨ delta_days = 2 ∨ delta_days = 3) then
      { sent := 0, skipped := 1, errors := 0,
        notes := ["skip: delta_days=" ++ toString delta_days ++
                  " (animal_id=" ++ toString e.animal_id ++ ")"],
        attempted := [], escalated := false, skipReason := none }
    else if should_send force st delta_days then
      match attemptSends plan with
      | (att, some _) =>
        { sent := 0, skipped := 0, errors := 1, notes := [],
          attempted := att, escalated := true, skipReason := none }
      | (att, none) =>
        { sent := 1, skipped := 0, errors := 0,
          notes := [sentNote force e delta_days],
          attempted := att, escalated := false, skipReason := none }
    else
      { sent := 0, skipped := 1, errors := 0,
        notes := ["skip: " ++ skipReasonStr st delta_days ++
                  " (animal_id=" ++ toString e.animal_id ++ ")"],
        attempted := [], escalated := false,
        skipReason := some (skipReasonStr st delta_days) }

/-- One tracked record as consumed by the sweep loop. -/
structure EntryInput where
  entry : SurgeryEntry
  statuses : List SurgeryStatus
  plan : SendPlan
deriving Repr, DecidableEq

/-- A step of the sweep: either a record to evaluate, or an exception raised
while fetching/evaluating (caught only by the top-level handler). -/
abbrev SweepItem := Except String EntryInput

/-- Accumulated outcome of the guarded `try:` of the sweep.  `escalated`
records that the top-level handler ran (logged the exception and attempted
the best-effort shikigami-feed/manager escalation notices). -/
structure LoopResult where
  sent : Nat
  skipped : Nat
  errors : Nat
  notes : List String
  escalated : Bool
deriving Repr, DecidableEq

/-- The guarded body of `surgery_notification`: evaluate records in order;
an uncaught exception aborts the remainder of the loop, increments
`errors` once and triggers the top-level escalation, keeping the partial
counters and notes. -/
def runLoop (force : Bool) (today : Int) : List SweepItem → LoopResult
  | [] => ⟨0, 0, 0, [], false⟩
  | Except.error _ :: _ => ⟨0, 0, 1, [], true⟩
  | Except.ok it :: rest =>
    let r := processEntry force today it.entry it.statuses it.plan
    let l := runLoop force today rest
    ⟨r.sent + l.sent, r.skipped + l.skipped, r.errors + l.errors,
     r.notes ++ l.notes, l.escalated⟩

/-- The JSON body returned by the view, plus `summaryLogged` for the
trailing `[SurgeryNotify SUMMARY]` log line (source line 770, outside the
`try:`, so it always fires). -/
structure Summary where
  status : String
  dry_run : Bool
  sent : Nat
  skipped : Nat
  errors : Nat
  notes : List String
  forced : Bool
  summaryLogged : Bool
  escalated : Bool
deriving Repr, DecidableEq

/-- The non-test path of the `surgery_notification` view. -/
def surgery_notification (force dryRun : Bool) (today : Int)
    (items : List SweepItem) : Summary :=
  let l := runLoop force today items
  { status := "ok", dry_run := dryRun, sent := l.sent, skipped := l.skipped,
    errors := l.errors, notes := l.notes, forced := force,
    summaryLogged := true, escalated := l.escalated }

/-! The theorems below settle the behavioural claims about the embedded
subsystems; concrete send-plan values used in several statements follow. -/

/-- Send plan where all three destination deliveries return normally. -/
def planOk : SendPlan :=
  ⟨Except.ok (), Except.ok (), Except.ok ()⟩

/-- Send plan where the first delivery (surgery channel) raises. -/
def planFirstFails : SendPlan :=
  ⟨Except.error ⟨"channel_not_found"⟩, Except.ok (), Except.ok ()⟩

/-- C4: for every `_post` invocation with a non-empty resolved channel and
non-empty text while the dry-run flag is true, no `chat_postMessage`
network call occurs, the PLAN and DRY-RUN log records are both emitted,
and the call returns normally. -/
theorem C4_dry_run_invariant
    (postSvc : String → String → Except SlackApiError (Option String))
    (c t label : String) (hc : c ≠ "") (ht : t ≠ "") :
    (post true postSvc (some c) (some t) label).net = [] ∧
    (post true postSvc (some c) (some t) label).logs =
      [⟨LogPhase.PLAN, label, t, some c, none⟩,
       ⟨LogPhase.DRYRUN, label, t, some c, none⟩] ∧
    (post true postSvc (some c) (some t) label).outcome = Except.ok () := by
  simp [post, strFalsy, String.isEmpty_iff, hc, ht]

/-- Witness for C4 at a concrete channel, text and service behaviour. -/
theorem C4_dry_run_invariant_witness :
    "C0123" ≠ "" ∧ "hello" ≠ "" ∧
    (post true (fun _ _ => Except.ok none) (some "C0123") (some "hello")
        "lbl").net = [] ∧
    (post true (fun _ _ => Except.ok none) (some "C0123") (some "hello")
        "lbl").logs =
      [⟨LogPhase.PLAN, "lbl", "hello", some "C0123", none⟩,
       ⟨LogPhase.DRYRUN, "lbl", "hello", some "C0123", none⟩] ∧
    (post true (fun _ _ => Except.ok none) (some "C0123") (some "hello")
        "lbl").outcome = Except.ok () := by
  refine ⟨by decide, by decide, ?_⟩
  exact C4_dry_run_invariant (fun _ _ => Except.ok none) "C0123" "hello" "lbl"
    (by decide) (by decide)

/-- C2: for a record with a status snapshot and `delta_days ∈ {1,2,3}`,
the computed guard equals `force || (euthanized == 0 && dayFlag == 0)`,
and with `force = false` and the day-bucket flag set the record is
skipped (not sent), with the bucket flag named in the composed reason. -/
theorem C2_decision_predicate (force : Bool) (today : Int) (e : SurgeryEntry)
    (st : SurgeryStatus) (rest : List SurgeryStatus) (plan : SendPlan)
    (hd : today - e.date = 1 ∨ today - e.date = 2 ∨ today - e.date = 3)
    (hf : force = false) (hday : dayFlag st (today - e.date) ≠ 0) :
    should_send force st (today - e.date) =
      (force || (st.euthanized == 0 && dayFlag st (today - e.date) == 0)) ∧
    (processEntry force today e (st :: rest) plan).sent = 0 ∧
    (processEntry force today e (st :: rest) plan).skipped = 1 ∧
    (dayKeyStr (today - e.date) ++ "=1") ∈ reasonFlags st (today - e.date) ∧
    (processEntry force today e (st :: rest) plan).skipReason =
      some (skipReasonStr st (today - e.date)) := by
  subst hf
  have hb : (dayFlag st (today - e.date) == 0) = false := by
    simpa using hday
  have hss : should_send false st (today - e.date) = false := by
    simp [should_send, hb]
  refine ⟨rfl, ?_⟩
  have hmem : (dayKeyStr (today - e.date) ++ "=1") ∈
      reasonFlags st (today - e.date) := by
    simp only [reasonFlags]
    have : (dayFlag st (today - e.date) != 0) = true := by simpa using hday
    rw [this]
    simp
  simp only [processEntry]
  rw [if_neg (not_not_intro hd), if_neg (by rw [hss]; exact Bool.false_ne_true)]
  exact ⟨rfl, rfl, hmem, rfl⟩

/-- Witness for C2: `delta_days = 2`, `day_two = 1`, `force = false`. -/
theorem C2_decision_predicate_witness :
    ((2 : Int) - 0 = 1 ∨ (2 : Int) - 0 = 2 ∨ (2 : Int) - 0 = 3) ∧
    (false = false) ∧ dayFlag ⟨0, 0, 1, 0⟩ ((2 : Int) - 0) ≠ 0 ∧
    (should_send false ⟨0, 0, 1, 0⟩ ((2 : Int) - 0) =
      (false || ((0 : Nat) == 0 && dayFlag ⟨0, 0, 1, 0⟩ ((2 : Int) - 0) == 0)) ∧
     (processEntry false 2 ⟨7, 0⟩ [⟨0, 0, 1, 0⟩] planOk).sent = 0 ∧
     (processEntry false 2 ⟨7, 0⟩ [⟨0, 0, 1, 0⟩] planOk).skipped = 1 ∧
     (dayKeyStr ((2 : Int) - 0) ++ "=1") ∈ reasonFlags ⟨0, 0, 1, 0⟩ ((2 : Int) - 0) ∧
     (processEntry false 2 ⟨7, 0⟩ [⟨0, 0, 1, 0⟩] planOk).skipReason =
       some (skipReasonStr ⟨0, 0, 1, 0⟩ ((2 : Int) - 0))) := by
  refine ⟨by decide, rfl, by decide, ?_⟩
  exact C2_decision_predicate false 2 ⟨7, 0⟩ ⟨0, 0, 1, 0⟩ [] planOk
    (by decide) rfl (by decide)

/-- C7: whenever the guard is false with `force = false` for a record with
a snapshot in the reminder window, at least one of the euthanized flag or
the day-bucket flag is set, the composed flag list is non-empty, and the
skip reason recorded by the loop is never `"unknown_reason"`. -/
theorem C7_unknown_reason_unreachable (today : Int) (e : SurgeryEntry)
    (st : SurgeryStatus) (rest : List SurgeryStatus) (plan : SendPlan)
    (hd : today - e.date = 1 ∨ today - e.date = 2 ∨ today - e.date = 3)
    (hss : should_send false st (today - e.date) = false) :
    (st.euthanized ≠ 0 ∨ dayFlag st (today - e.date) ≠ 0) ∧
    reasonFlags st (today - e.date) ≠ [] ∧
    skipReasonStr st (today - e.date) ≠ "unknown_reason" ∧
    (processEntry false today e (st :: rest) plan).skipReason ≠
      some "unknown_reason" := by
  have hflags : st.euthanized ≠ 0 ∨ dayFlag st (today - e.date) ≠ 0 := by
    by_contra hcon
    push_neg at hcon
    simp [should_send, hcon.1, hcon.2] at hss
  have hne : reasonFlags st (today - e.date) ≠ [] := by
    rcases hflags with h | h
    · have : (st.euthanized != 0) = true := by simpa using h
      simp [reasonFlags, this]
    · have : (dayFlag st (today - e.date) != 0) = true := by simpa using h
      simp [reasonFlags, this]
  have hk : dayKeyStr (today - e.date) = "day_one" ∨
      dayKeyStr (today - e.date) = "day_two" ∨
      dayKeyStr (today - e.date) = "day_three" := by
    rcases hd with h | h | h <;> rw [h]
    · exact Or.inl (by decide)
    · exact Or.inr (Or.inl (by decide))
    · exact Or.inr (Or.inr (by decide))
  have hval : reasonFlags st (today - e.date) = ["euthanized=1"] ∨
      reasonFlags st (today - e.date) = [dayKeyStr (today - e.date) ++ "=1"] ∨
      reasonFlags st (today - e.date) =
        ["euthanized=1", dayKeyStr (today - e.date) ++ "=1"] := by
    by_cases he : st.euthanized = 0 <;>
      by_cases hg : dayFlag st (today - e.date) = 0
    · exfalso
      rcases hflags with h | h
      · exact h he
      · exact h hg
    · exact Or.inr (Or.inl (by simp [reasonFlags, he, hg]))
    · exact Or.inl (by simp [reasonFlags, he, hg])
    · exact Or.inr (Or.inr (by simp [reasonFlags, he, hg]))
  have hstr : skipReasonStr st (today - e.date) ≠ "unknown_reason" := by
    have heq : skipReasonStr st (today - e.date) =
        String.intercalate " and " (reasonFlags st (today - e.date)) := by
      simp [skipReasonStr, List.isEmpty_iff, hne]
    rw [heq]
    rcases hval with hv | hv | hv
    · rw [hv]; decide
    · rcases hk with h | h | h <;> rw [hv, h] <;> decide
    · rcases hk with h | h | h <;> rw [hv, h] <;> decide
  refine ⟨hflags, hne, hstr, ?_⟩
  simp only [processEntry]
  rw [if_neg (not_not_intro hd), if_neg (by rw [hss]; exact Bool.false_ne_true)]
  intro hcon
  exact hstr (Option.some.inj hcon)

/-- Witness for C7: euthanized record at `delta_days = 1`. -/
theorem C7_unknown_reason_unreachable_witness :
    ((1 : Int) - 0 = 1 ∨ (1 : Int) - 0 = 2 ∨ (1 : Int) - 0 = 3) ∧
    should_send false ⟨1, 0, 0, 0⟩ ((1 : Int) - 0) = false ∧
    (((1 : Nat) ≠ 0 ∨ dayFlag ⟨1, 0, 0, 0⟩ ((1 : Int) - 0) ≠ 0) ∧
     reasonFlags ⟨1, 0, 0, 0⟩ ((1 : Int) - 0) ≠ [] ∧
     skipReasonStr ⟨1, 0, 0, 0⟩ ((1 : Int) - 0) ≠ "unknown_reason" ∧
     (processEntry false 1 ⟨7, 0⟩ [⟨1, 0, 0, 0⟩] planOk).skipReason ≠
       some "unknown_reason") := by
  refine ⟨by decide, by decide, ?_⟩
  exact C7_unknown_reason_unreachable 1 ⟨7, 0⟩ ⟨1, 0, 0, 0⟩ [] planOk
    (by decide) (by decide)

/-- C6 counterexample: a record with no status snapshot and
`delta_days = 5` is skipped with reason `no_status`, not with reason
`delta_days=5`, because the no-status check precedes the delta check. -/
theorem C6_counterexample :
    (processEntry false 5 ⟨7, 0⟩ [] planOk).notes =
      ["skip: no_status (animal_id=7)"] ∧
    (processEntry false 5 ⟨7, 0⟩ [] planOk).notes ≠
      ["skip: delta_days=5 (animal_id=7)"] := by
  decide

/-- C6 (amended): a record with a status snapshot whose `delta_days` is
outside `{1,2,3}` is skipped with reason `delta_days=<n>` regardless of
the snapshot; a record with no snapshot at all is skipped earlier with
reason `no_status` (the no-status check precedes the delta check). -/
theorem C6_out_of_window_skip (force : Bool) (today : Int) (e : SurgeryEntry)
    (st : SurgeryStatus) (rest : List SurgeryStatus) (plan : SendPlan)
    (hd : ¬(today - e.date = 1 ∨ today - e.date = 2 ∨ today - e.date = 3)) :
    (processEntry force today e (st :: rest) plan).sent = 0 ∧
    (processEntry force today e (st :: rest) plan).skipped = 1 ∧
    (processEntry force today e (st :: rest) plan).errors = 0 ∧
    (processEntry force today e (st :: rest) plan).notes =
      ["skip: delta_days=" ++ toString (today - e.date) ++
       " (animal_id=" ++ toString e.animal_id ++ ")"] ∧
    (processEntry force today e [] plan).notes =
      ["skip: no_status (animal_id=" ++ toString e.animal_id ++ ")"] := by
  simp only [processEntry]
  rw [if_pos hd]
  simp

/-- Witness for C6 (amended) at `delta_days = 5`. -/
theorem C6_out_of_window_skip_witness :
    (¬((5 : Int) - 0 = 1 ∨ (5 : Int) - 0 = 2 ∨ (5 : Int) - 0 = 3)) ∧
    ((processEntry false 5 ⟨7, 0⟩ [⟨0, 0, 0, 0⟩] planOk).sent = 0 ∧
     (processEntry false 5 ⟨7, 0⟩ [⟨0, 0, 0, 0⟩] planOk).skipped = 1 ∧
     (processEntry false 5 ⟨7, 0⟩ [⟨0, 0, 0, 0⟩] planOk).errors = 0 ∧
     (processEntry false 5 ⟨7, 0⟩ [⟨0, 0, 0, 0⟩] planOk).notes =
       ["skip: delta_days=" ++ toString ((5 : Int) - 0) ++
        " (animal_id=" ++ toString (7 : Nat) ++ ")"] ∧
     (processEntry false 5 ⟨7, 0⟩ [] planOk).notes =
       ["skip: no_status (animal_id=" ++ toString (7 : Nat) ++ ")"]) := by
  refine ⟨by decide, ?_⟩
  exact C6_out_of_window_skip false 5 ⟨7, 0⟩ ⟨0, 0, 0, 0⟩ [] planOk (by decide)

/-- C5 counterexample: with `force = true` and a clean snapshot at
`delta_days = 1`, the ordinary guard alone would already send
(`should_send` is true with `force = false`), yet the note still carries
the `(forced)` suffix — the suffix tracks the `force` flag, not whether
`force` was the deciding factor. -/
theorem C5_counterexample :
    should_send false ⟨0, 0, 0, 0⟩ ((1 : Int) - 0) = true ∧
    (processEntry true 1 ⟨7, 0⟩ [⟨0, 0, 0, 0⟩] planOk).notes =
      ["sent: animal_id=7 day=1 (forced)"] := by
  decide

/-- C5 (amended): for every record dispatched successfully by the sweep,
the note is `"sent: animal_id=<id> day=<n>"` with the `" (forced)"`
suffix appended exactly when the `force` flag is true, regardless of
whether the ordinary guard would have sent by itself. -/
theorem C5_forced_note (force : Bool) (today : Int) (e : SurgeryEntry)
    (st : SurgeryStatus) (rest : List SurgeryStatus) (plan : SendPlan)
    (hd : today - e.date = 1 ∨ today - e.date = 2 ∨ today - e.date = 3)
    (hss : should_send force st (today - e.date) = true)
    (hnoerr : (attemptSends plan).2 = none) :
    (processEntry force today e (st :: rest) plan).sent = 1 ∧
    (processEntry force today e (st :: rest) plan).notes =
      ["sent: animal_id=" ++ toString e.animal_id ++ " day=" ++
       toString (today - e.date) ++ (if force then " (forced)" else "")] := by
  simp only [processEntry]
  rw [if_neg (not_not_intro hd), if_pos (by rw [hss])]
  split
  · rename_i att err heq
    rw [heq] at hnoerr
    cases hnoerr
  · rename_i att heq
    refine ⟨rfl, ?_⟩
    simp [sentNote]

/-- Witness for C5 (amended): forced dispatch over a closed record. -/
theorem C5_forced_note_witness :
    ((1 : Int) - 0 = 1 ∨ (1 : Int) - 0 = 2 ∨ (1 : Int) - 0 = 3) ∧
    should_send true ⟨1, 1, 1, 1⟩ ((1 : Int) - 0) = true ∧
    (attemptSends planOk).2 = none ∧
    ((processEntry true 1 ⟨7, 0⟩ [⟨1, 1, 1, 1⟩] planOk).sent = 1 ∧
     (processEntry true 1 ⟨7, 0⟩ [⟨1, 1, 1, 1⟩] planOk).notes =
       ["sent: animal_id=" ++ toString (7 : Nat) ++ " day=" ++
        toString ((1 : Int) - 0) ++ (if true then " (forced)" else "")]) := by
  refine ⟨by decide, by decide, by decide, ?_⟩
  exact C5_forced_note true 1 ⟨7, 0⟩ ⟨1, 1, 1, 1⟩ [] planOk
    (by decide) (by decide) (by decide)

/-- C1 counterexample: a due record whose surgery-channel delivery raises
`SlackApiError` never attempts the manager DM or the shikigami feed (the
three deliveries share one `try:`); the next record is still evaluated. -/
theorem C1_counterexample :
    should_send false ⟨0, 0, 0, 0⟩ ((1 : Int) - 0) = true ∧
    (processEntry false 1 ⟨7, 0⟩ [⟨0, 0, 0, 0⟩] planFirstFails).attempted =
      [Dest.surgeryChannel] ∧
    Dest.managerDM ∉
      (processEntry false 1 ⟨7, 0⟩ [⟨0, 0, 0, 0⟩] planFirstFails).attempted ∧
    Dest.shikigamiFeed ∉
      (processEntry false 1 ⟨7, 0⟩ [⟨0, 0, 0, 0⟩] planFirstFails).attempted ∧
    (runLoop false 1
      [Except.ok ⟨⟨7, 0⟩, [⟨0, 0, 0, 0⟩], planFirstFails⟩,
       Except.ok ⟨⟨8, 0⟩, [⟨0, 0, 0, 0⟩], planOk⟩]).sent = 1 ∧
    (runLoop false 1
      [Except.ok ⟨⟨7, 0⟩, [⟨0, 0, 0, 0⟩], planFirstFails⟩,
       Except.ok ⟨⟨8, 0⟩, [⟨0, 0, 0, 0⟩], planOk⟩]).errors = 1 := by
  decide

/-- C1 (amended): when delivery to the first destination raises
`SlackApiError` for a due record, the remaining two destinations are NOT
attempted for that record; the handler counts one error, attempts the
escalation DM, appends no note, and every subsequent tracked record is
still evaluated with its outcome aggregated unchanged. -/
theorem C1_error_isolation (force : Bool) (today : Int) (e : SurgeryEntry)
    (st : SurgeryStatus) (rest : List SurgeryStatus) (plan : SendPlan)
    (err : SlackApiError) (items : List SweepItem)
    (hd : today - e.date = 1 ∨ today - e.date = 2 ∨ today - e.date = 3)
    (hss : should_send force st (today - e.date) = true)
    (herr : plan.surgeryChannel = Except.error err) :
    (processEntry force today e (st :: rest) plan).attempted =
      [Dest.surgeryChannel] ∧
    (processEntry force today e (st :: rest) plan).errors = 1 ∧
    (processEntry force today e (st :: rest) plan).sent = 0 ∧
    (processEntry force today e (st :: rest) plan).escalated = true ∧
    (runLoop force today (Except.ok ⟨e, st :: rest, plan⟩ :: items)).sent =
      (runLoop force today items).sent ∧
    (runLoop force today (Except.ok ⟨e, st :: rest, plan⟩ :: items)).skipped =
      (runLoop force today items).skipped ∧
    (runLoop force today (Except.ok ⟨e, st :: rest, plan⟩ :: items)).errors =
      1 + (runLoop force today items).errors ∧
    (runLoop force today (Except.ok ⟨e, st :: rest, plan⟩ :: items)).notes =
      (runLoop force today items).notes := by
  have hatt : attemptSends plan = ([Dest.surgeryChannel], some err) := by
    simp [attemptSends, herr]
  have hpe : processEntry force today e (st :: rest) plan =
      { sent := 0, skipped := 0, errors := 1, notes := [],
        attempted := [Dest.surgeryChannel], escalated := true,
        skipReason := none } := by
    simp only [processEntry]
    rw [if_neg (not_not_intro hd), if_pos (by rw [hss]), hatt]
  refine ⟨by rw [hpe], by rw [hpe], by rw [hpe], by rw [hpe], ?_, ?_, ?_, ?_⟩
  · simp [runLoop, hpe]
  · simp [runLoop, hpe]
  · simp [runLoop, hpe]
  · simp [runLoop, hpe]

/-- Witness for C1 (amended): first destination raises, one more record
follows and is dispatched normally. -/
theorem C1_error_isolation_witness :
    ((1 : Int) - 0 = 1 ∨ (1 : Int) - 0 = 2 ∨ (1 : Int) - 0 = 3) ∧
    should_send false ⟨0, 0, 0, 0⟩ ((1 : Int) - 0) = true ∧
    planFirstFails.surgeryChannel = Except.error ⟨"channel_not_found"⟩ ∧
    ((processEntry false 1 ⟨7, 0⟩ [⟨0, 0, 0, 0⟩] planFirstFails).attempted =
      [Dest.surgeryChannel] ∧
     (processEntry false 1 ⟨7, 0⟩ [⟨0, 0, 0, 0⟩] planFirstFails).errors = 1 ∧
     (processEntry false 1 ⟨7, 0⟩ [⟨0, 0, 0, 0⟩] planFirstFails).sent = 0 ∧
     (processEntry false 1 ⟨7, 0⟩ [⟨0, 0, 0, 0⟩] planFirstFails).escalated =
       true ∧
     (runLoop false 1 (Except.ok ⟨⟨7, 0⟩, [⟨0, 0, 0, 0⟩], planFirstFails⟩ ::
        [Except.ok ⟨⟨8, 0⟩, [⟨0, 0, 0, 0⟩], planOk⟩])).sent =
       (runLoop false 1 [Except.ok ⟨⟨8, 0⟩, [⟨0, 0, 0, 0⟩], planOk⟩]).sent ∧
     (runLoop false 1 (Except.ok ⟨⟨7, 0⟩, [⟨0, 0, 0, 0⟩], planFirstFails⟩ ::
        [Except.ok ⟨⟨8, 0⟩, [⟨0, 0, 0, 0⟩], planOk⟩])).skipped =
       (runLoop false 1 [Except.ok ⟨⟨8, 0⟩, [⟨0, 0, 0, 0⟩], planOk⟩]).skipped ∧
     (runLoop false 1 (Except.ok ⟨⟨7, 0⟩, [⟨0, 0, 0, 0⟩], planFirstFails⟩ ::
        [Except.ok ⟨⟨8, 0⟩, [⟨0, 0, 0, 0⟩], planOk⟩])).errors =
       1 + (runLoop false 1 [Except.ok ⟨⟨8, 0⟩, [⟨0, 0, 0, 0⟩], planOk⟩]).errors ∧
     (runLoop false 1 (Except.ok ⟨⟨7, 0⟩, [⟨0, 0, 0, 0⟩], planFirstFails⟩ ::
        [Except.ok ⟨⟨8, 0⟩, [⟨0, 0, 0, 0⟩], planOk⟩])).notes =
       (runLoop false 1 [Except.ok ⟨⟨8, 0⟩, [⟨0, 0, 0, 0⟩], planOk⟩]).notes) := by
  refine ⟨by decide, by decide, by decide, ?_⟩
  exact C1_error_isolation false 1 ⟨7, 0⟩ ⟨0, 0, 0, 0⟩ [] planFirstFails
    ⟨"channel_not_found"⟩ [Except.ok ⟨⟨8, 0⟩, [⟨0, 0, 0, 0⟩], planOk⟩]
    (by decide) (by decide) (by decide)

/-- Helper for C3: an exception among the sweep items triggers the
top-level handler (escalation attempted, at least one error counted). -/
theorem runLoop_mem_error (force : Bool) (today : Int)
    (items : List SweepItem) (h : ∃ msg, Except.error msg ∈ items) :
    (runLoop force today items).escalated = true ∧
    1 ≤ (runLoop force today items).errors := by
  induction items with
  | nil =>
    rcases h with ⟨m, hm⟩
    cases hm
  | cons hd tl ih =>
    cases hd with
    | error m => simp [runLoop]
    | ok it =>
      rcases h with ⟨m, hm⟩
      rcases List.mem_cons.mp hm with h1 | h1
      · exact absurd h1 (by simp)
      · have hih := ih ⟨m, h1⟩
        simp only [runLoop]
        exact ⟨hih.1, le_trans hih.2 (Nat.le_add_left _ _)⟩

/-- C3: the sweep always returns a structured summary whose trailing
summary log line fires, carrying the counters, notes and the dry-run
flag; even when fetching or evaluating the records raises an exception,
the exception is recovered, the escalation notice is attempted, and at
least one error is counted — the sweep never terminates with the
exception (it is a total function into `Summary`). -/
theorem C3_top_level_recovery (force dryRun : Bool) (today : Int)
    (items : List SweepItem) :
    (surgery_notification force dryRun today items).summaryLogged = true ∧
    (surgery_notification force dryRun today items).status = "ok" ∧
    (surgery_notification force dryRun today items).dry_run = dryRun ∧
    (surgery_notification force dryRun today items).forced = force ∧
    (surgery_notification force dryRun today items).sent =
      (runLoop force today items).sent ∧
    (surgery_notification force dryRun today items).skipped =
      (runLoop force today items).skipped ∧
    (surgery_notification force dryRun today items).errors =
      (runLoop force today items).errors ∧
    (surgery_notification force dryRun today items).notes =
      (runLoop force today items).notes ∧
    ((∃ msg, Except.error msg ∈ items) →
      (surgery_notification force dryRun today items).escalated = true ∧
      1 ≤ (surgery_notification force dryRun today items).errors) := by
  refine ⟨rfl, rfl, rfl, rfl, rfl, rfl, rfl, rfl, ?_⟩
  intro h
  exact runLoop_mem_error force today items h

/-- Witness for C3 with a sweep whose fetch raises. -/
theorem C3_top_level_recovery_witness :
    (∃ msg, Except.error msg ∈ ([Except.error "db down"] : List SweepItem)) ∧
    (surgery_notification false true 0 [Except.error "db down"]).escalated =
      true ∧
    1 ≤ (surgery_notification false true 0 [Except.error "db down"]).errors := by
  have hmem : ∃ msg, Except.error msg ∈
      ([Except.error "db down"] : List SweepItem) :=
    ⟨"db down", List.mem_singleton.mpr rfl⟩
  refine ⟨hmem, ?_⟩
  exact (C3_top_level_recovery false true 0 [Except.error "db down"]).2.2.2.2.2.2.2.2
    hmem

/-- C8 counterexample: a label already in literal-identifier shape is
resolved twice from a fresh cache with ZERO pagination scans in total,
not exactly one — the literal short-circuit precedes the scan, so "for
every label ... exactly one upstream pagination scan" fails. -/
theorem C8_counterexample :
    (resolve_channel_id [] [] (some "C0123")).scans +
      (resolve_channel_id (resolve_channel_id [] [] (some "C0123")).cache []
        (some "C0123")).scans = 0 ∧
    (resolve_channel_id [] [] (some "C0123")).scans +
      (resolve_channel_id (resolve_channel_id [] [] (some "C0123")).cache []
        (some "C0123")).scans ≠ 1 ∧
    (resolve_channel_id [] [] (some "C0123")).result = some "C0123" ∧
    (resolve_channel_id (resolve_channel_id [] [] (some "C0123")).cache []
      (some "C0123")).result = some "C0123" := by
  decide

/-- C8 (amended): resolving the same non-blank, non-literal label twice
on a fresh resolver, without intervening directory mutation, issues
exactly one pagination scan in total: the second call is a cache hit
that performs no scan and returns the first call's result (including a
cached negative result).  Blank or literal-shaped labels issue zero
scans (see the counterexample). -/
theorem C8_cache_correctness (pages : List ChanPage) (k : Option String)
    (hF : strFalsy k = false) (hL : looks_like_id k = false) :
    (resolve_channel_id (resolve_channel_id [] pages k).cache pages k).scans
      = 0 ∧
    (resolve_channel_id (resolve_channel_id [] pages k).cache pages k).result
      = (resolve_channel_id [] pages k).result ∧
    (resolve_channel_id [] pages k).scans +
      (resolve_channel_id (resolve_channel_id [] pages k).cache pages k).scans
      = 1 := by
  have h1 : resolve_channel_id [] pages k =
      ⟨(resolve_channel_id_core pages k).1, (resolve_channel_id_core pages k).2,
       [(k, (resolve_channel_id_core pages k).1)]⟩ := rfl
  have h2 : cacheLookup [(k, (resolve_channel_id_core pages k).1)] k =
      some (resolve_channel_id_core pages k).1 := by
    simp [cacheLookup, List.find?]
  have h3 : resolve_channel_id [(k, (resolve_channel_id_core pages k).1)]
      pages k =
      ⟨(resolve_channel_id_core pages k).1, 0,
       cacheTouch [(k, (resolve_channel_id_core pages k).1)] k⟩ := by
    rw [resolve_channel_id, h2]
  have hcore : (resolve_channel_id_core pages k).2 = 1 := by
    rcases k with _ | s
    · simp [strFalsy] at hF
    · rw [resolve_channel_id_core, if_neg (by rw [hF]; exact Bool.false_ne_true),
        if_neg (by rw [hL]; exact Bool.false_ne_true)]
  rw [h1, h3]
  exact ⟨rfl, rfl, by simp [hcore]⟩

/-- Witness for C8 (amended): a `#`-sigil channel name resolved against a
one-page directory. -/
theorem C8_cache_correctness_witness :
    strFalsy (some "#general") = false ∧
    looks_like_id (some "#general") = false ∧
    ((resolve_channel_id
        (resolve_channel_id [] [Except.ok [⟨some "C1", some "general"⟩]]
          (some "#general")).cache
        [Except.ok [⟨some "C1", some "general"⟩]] (some "#general")).scans
      = 0 ∧
     (resolve_channel_id
        (resolve_channel_id [] [Except.ok [⟨some "C1", some "general"⟩]]
          (some "#general")).cache
        [Except.ok [⟨some "C1", some "general"⟩]] (some "#general")).result
      = (resolve_channel_id [] [Except.ok [⟨some "C1", some "general"⟩]]
          (some "#general")).result ∧
     (resolve_channel_id [] [Except.ok [⟨some "C1", some "general"⟩]]
        (some "#general")).scans +
       (resolve_channel_id
         (resolve_channel_id [] [Except.ok [⟨some "C1", some "general"⟩]]
           (some "#general")).cache
         [Except.ok [⟨some "C1", some "general"⟩]] (some "#general")).scans
      = 1) := by
  refine ⟨by decide, by decide, ?_⟩
  exact C8_cache_correctness [Except.ok [⟨some "C1", some "general"⟩]]
    (some "#general") (by decide) (by decide)

/-- C9 counterexample: `resolve_user_id` does NOT pass through the
literal-shaped input `"C0123"` (its tag is not `"U"`): it performs a
pagination scan and can return a different identifier — here the id of a
member whose username is literally `"C0123"`. -/
theorem C9_counterexample :
    looks_like_id (some "C0123") = true ∧
    (resolve_user_id []
      [Except.ok [⟨some "U9", some "C0123", none, none, false⟩]]
      (some "C0123")).scans = 1 ∧
    (resolve_user_id []
      [Except.ok [⟨some "U9", some "C0123", none, none, false⟩]]
      (some "C0123")).result = some "U9" ∧
    (resolve_user_id []
      [Except.ok [⟨some "U9", some "C0123", none, none, false⟩]]
      (some "C0123")).result ≠ some "C0123" := by
  decide

/-- C9 (amended): `resolve_channel_id` returns any literal-shaped input
(first character in C/D/G/U) verbatim with no pagination scan;
`resolve_user_id` does so only for inputs starting with `"U"` — other
literal-shaped inputs fall through to the paginated user scan. -/
theorem C9_literal_passthrough (chanPages : List ChanPage)
    (usersPages : List UsersPage) (s : String)
    (hL : looks_like_id (some s) = true) :
    (resolve_channel_id [] chanPages (some s)).result = some s ∧
    (resolve_channel_id [] chanPages (some s)).scans = 0 ∧
    (startsWithU (some s) = true →
      (resolve_user_id [] usersPages (some s)).result = some s ∧
      (resolve_user_id [] usersPages (some s)).scans = 0) := by
  have hF : strFalsy (some s) = false := by
    rcases hb : s.isEmpty
    · simp [strFalsy, hb]
    · rw [looks_like_id, hb] at hL
      simp at hL
  have hchan : resolve_channel_id_core chanPages (some s) = (some s, 0) := by
    rw [resolve_channel_id_core, if_neg (by rw [hF]; exact Bool.false_ne_true),
      if_pos hL]
  have hcl : resolve_channel_id [] chanPages (some s) =
      ⟨(resolve_channel_id_core chanPages (some s)).1,
       (resolve_channel_id_core chanPages (some s)).2,
       [(some s, (resolve_channel_id_core chanPages (some s)).1)]⟩ := rfl
  refine ⟨by rw [hcl, hchan], by rw [hcl, hchan], ?_⟩
  intro hU
  have huser : resolve_user_id_core usersPages (some s) = (some s, 0) := by
    rw [resolve_user_id_core, if_neg (by rw [hF]; exact Bool.false_ne_true),
      if_pos (by rw [hL, hU]; rfl)]
  have hul : resolve_user_id [] usersPages (some s) =
      ⟨(resolve_user_id_core usersPages (some s)).1,
       (resolve_user_id_core usersPages (some s)).2,
       [(some s, (resolve_user_id_core usersPages (some s)).1)]⟩ := rfl
  exact ⟨by rw [hul, huser], by rw [hul, huser]⟩

/-- Witness for C9 (amended) at the literal inputs `"C0123"` and `"U0123"`. -/
theorem C9_literal_passthrough_witness :
    looks_like_id (some "U0123") = true ∧
    ((resolve_channel_id [] [] (some "U0123")).result = some "U0123" ∧
     (resolve_channel_id [] [] (some "U0123")).scans = 0 ∧
     (startsWithU (some "U0123") = true →
       (resolve_user_id [] [] (some "U0123")).result = some "U0123" ∧
       (resolve_user_id [] [] (some "U0123")).scans = 0)) := by
  refine ⟨by decide, ?_⟩
  exact C9_literal_passthrough [] [] "U0123" (by decide)

/-- Helper for C10: a successful user scan result comes from a non-deleted
member of some fetched page, matching the needle, whose id it is. -/
theorem scanUsers_mem (needle : String) (pages : List UsersPage) (uid : String)
    (h : scanUsers needle pages = some uid) :
    ∃ ms, Except.ok ms ∈ pages ∧ ∃ u, u ∈ ms ∧
      u.deleted = false ∧ userMatches needle u = true ∧ u.id = some uid := by
  induction pages with
  | nil => simp [scanUsers] at h
  | cons p rest ih =>
    cases p with
    | error e => simp [scanUsers] at h
    | ok ms =>
      rw [scanUsers] at h
      rcases hfind : findUserInPage needle ms with _ | idOpt
      · rw [hfind] at h
        rcases ih h with ⟨ms', hms', u, hu, hdel, hmatch, hid⟩
        exact ⟨ms', List.mem_cons_of_mem _ hms', u, hu, hdel, hmatch, hid⟩
      · rw [hfind] at h
        rcases Option.map_eq_some'.mp hfind with ⟨u, hu, hid⟩
        have hmem := List.mem_of_find?_eq_some hu
        have hpred := List.find?_some hu
        have hpred' : u.deleted = false ∧ userMatches needle u = true := by
          simpa using hpred
        refine ⟨ms, List.mem_cons_self _ _, u, hmem, hpred'.1, hpred'.2, ?_⟩
        exact hid.trans h

/-- C10 counterexample: a literal `"U…"` input is returned verbatim
without consulting the directory, even when the only directory member
with that identifier has the deleted flag set — so "for every input the
returned identifier, if any, belongs to a non-deleted member" fails. -/
theorem C10_counterexample :
    (resolve_user_id []
      [Except.ok [⟨some "U1", some "bob", none, none, true⟩]]
      (some "U1")).result = some "U1" ∧
    (∀ u ∈ [(⟨some "U1", some "bob", none, none, true⟩ : SlackUser)],
      u.id = some "U1" → u.deleted = true) := by
  decide

/-- C10 (amended): whenever `resolve_user_id` produces its result through
the paginated scan (one scan performed), the returned identifier, if
any, is the id of a member of a fetched page whose deleted flag is NOT
set and who matches the searched needle; deleted members are skipped even
on an exact name match.  (Literal `"U…"` inputs bypass the directory and
are returned verbatim.) -/
theorem C10_deleted_excluded (pages : List UsersPage) (k : Option String)
    (uid : String) (h1 : (resolve_user_id [] pages k).scans = 1)
    (h2 : (resolve_user_id [] pages k).result = some uid) :
    ∃ s, k = some s ∧ ∃ ms, Except.ok ms ∈ pages ∧ ∃ u, u ∈ ms ∧
      u.deleted = false ∧ userMatches (lstrip '@' s) u = true ∧
      u.id = some uid := by
  have hred : resolve_user_id [] pages k =
      ⟨(resolve_user_id_core pages k).1, (resolve_user_id_core pages k).2,
       [(k, (resolve_user_id_core pages k).1)]⟩ := rfl
  rw [hred] at h1 h2
  rcases k with _ | s
  · have hz : resolve_user_id_core pages none = (none, 0) := rfl
    rw [hz] at h1
    simp at h1
  · by_cases hF : strFalsy (some s) = true
    · have hz : resolve_user_id_core pages (some s) = (none, 0) := by
        rw [resolve_user_id_core, if_pos hF]
      rw [hz] at h1
      simp at h1
    · by_cases hLU :
          (looks_like_id (some s) && startsWithU (some s)) = true
      · have hz : resolve_user_id_core pages (some s) = (some s, 0) := by
          rw [resolve_user_id_core, if_neg hF, if_pos hLU]
        rw [hz] at h1
        simp at h1
      · have hz : resolve_user_id_core pages (some s) =
            (scanUsers (lstrip '@' s) pages, 1) := by
          rw [resolve_user_id_core, if_neg hF, if_neg hLU]
        rw [hz] at h2
        exact ⟨s, rfl, scanUsers_mem (lstrip '@' s) pages uid h2⟩

/-- Witness for C10 (amended): a scan over a page holding one deleted and
one live member with the same name returns the live member's id. -/
theorem C10_deleted_excluded_witness :
    (resolve_user_id []
      [Except.ok [⟨some "U1", some "alice", none, none, true⟩,
                  ⟨some "U2", some "alice", none, none, false⟩]]
      (some "alice")).scans = 1 ∧
    (resolve_user_id []
      [Except.ok [⟨some "U1", some "alice", none, none, true⟩,
                  ⟨some "U2", some "alice", none, none, false⟩]]
      (some "alice")).result = some "U2" ∧
    (∃ s, (some "alice" : Option String) = some s ∧
      ∃ ms, Except.ok ms ∈
        ([Except.ok [⟨some "U1", some "alice", none, none, true⟩,
                     ⟨some "U2", some "alice", none, none, false⟩]] :
         List UsersPage) ∧
      ∃ u, u ∈ ms ∧ u.deleted = false ∧
        userMatches (lstrip '@' s) u = true ∧ u.id = some "U2") := by
  refine ⟨by decide, by decide, ?_⟩
  exact C10_deleted_excluded
    [Except.ok [⟨some "U1", some "alice", none, none, true⟩,
                ⟨some "U2", some "alice", none, none, false⟩]]
    (some "alice") "U2" (by decide) (by decide)

end Pipeline
